import Mathlib

/-!
Shallow embedding of the Contextual Artifact Cache and Refresh Orchestrator
of the Idleview repository (src/src/main.js).

The module-level mutable state of main.js (currentWeather, prefetchedPhoto,
lastCacheValid, lastPhotoFetchError, the parsed localStorage cache record and
the visible background) is packaged as the structure OrchState.  The external
Tauri capabilities invoked by the orchestrator (is_cache_valid,
build_photo_query, get_unsplash_photo) are passed as a record of functions
returning Except, so that a throwing invoke is an Except.error and the
try/catch blocks of the source become matches on that Except.  Wall-clock
reads (Date.now()) are passed as explicit integer parameters.  All functions
are direct translations of the corresponding JavaScript functions; line
references point into src/src/main.js.
-/

namespace Idleview

/-- Artifact payload returned by the get_unsplash_photo capability
(url, author, author_url, download_location). -/
structure Artifact where
  url : String
  author : String
  authorUrl : String
  downloadLocation : Option String
deriving DecidableEq, Repr

/-- The persisted cache record written by cachePhoto (main.js 211-215):
{ photo, query, timestamp }. -/
structure CacheEntry where
  photo : Artifact
  query : String
  timestamp : Int
deriving DecidableEq, Repr

/-- The prefetch buffer contents set by prefetchNextPhoto (main.js 407):
{ photo, query }, no timestamp. -/
structure PrefetchedPhoto where
  photo : Artifact
  query : String
deriving DecidableEq, Repr

/-- The weather fields of currentWeather that the photo pipeline reads
(main.js 223-233). -/
structure Weather where
  cloudcover : Int
  rain : Int
  snowfall : Int
  sunrise : String
  sunset : String
deriving DecidableEq, Repr

/-- The photos subtree of user settings; fields may be absent or null in the
persisted JSON, which is modelled by Option. -/
structure PhotosSettings where
  refresh_interval : Option Int
  enable_festive_queries : Option Bool
deriving DecidableEq, Repr

/-- The slice of userSettings the orchestrator reads. -/
structure Settings where
  photos : Option PhotosSettings
deriving DecidableEq, Repr

/-- Argument record passed to the build_photo_query capability
(main.js 223-233). -/
structure QueryParams where
  cloudcover : Int
  rain : Int
  snowfall : Int
  sunriseIso : String
  sunsetIso : String
  enableFestive : Bool
deriving DecidableEq, Repr

/-- The orchestrator state: the parsed localStorage cache record, the
prefetch buffer, the artifact currently applied as the page background, and
the diagnostic fields lastCacheValid and lastPhotoFetchError, plus the
currentWeather context snapshot (main.js 3-11). -/
structure OrchState where
  cache : Option CacheEntry
  prefetchedPhoto : Option PrefetchedPhoto
  displayed : Option Artifact
  lastCacheValid : Option Bool
  lastPhotoFetchError : Option String
  currentWeather : Option Weather
deriving DecidableEq, Repr

/-- The external Tauri capabilities consumed by the orchestrator.  A call
that throws is modelled by Except.error carrying the error message. -/
structure Capabilities where
  is_cache_valid : Int → Except String Bool
  build_photo_query : QueryParams → Except String String
  get_unsplash_photo : String → Except String Artifact

/-- getRefreshIntervalMs (main.js 217-220):
(userSettings?.photos?.refresh_interval || 30) * 60 * 1000.
Optional chaining on a missing settings object or subtree yields undefined,
and the JavaScript or-operator replaces the falsy values undefined, null and
0 by the default 30. -/
def getRefreshIntervalMs (userSettings : Option Settings) : Int :=
  (match (userSettings.bind (fun u => u.photos)).bind (fun p => p.refresh_interval) with
   | none => 30
   | some v => if v = 0 then 30 else v) * 60 * 1000

/-- The record built by buildPhotoQueryParams when currentWeather is present
(main.js 225-232).  enable_festive_queries uses the nullish-coalescing
default true, which keeps an explicit false. -/
def mkQueryParams (w : Weather) (userSettings : Option Settings) : QueryParams :=
  { cloudcover := w.cloudcover
    rain := w.rain
    snowfall := w.snowfall
    sunriseIso := w.sunrise
    sunsetIso := w.sunset
    enableFestive :=
      ((userSettings.bind (fun u => u.photos)).bind
        (fun p => p.enable_festive_queries)).getD true }

/-- buildPhotoQueryParams (main.js 223-233): null when currentWeather is
absent, otherwise the query parameter record. -/
def buildPhotoQueryParams (currentWeather : Option Weather)
    (userSettings : Option Settings) : Option QueryParams :=
  match currentWeather with
  | none => none
  | some w => some (mkQueryParams w userSettings)

/-- cachePhoto (main.js 211-215): localStorage.setItem of
{ photo, query, timestamp: Date.now() }; the write fully replaces any prior
entry.  The Date.now() read at the moment of the call is the parameter now. -/
def cachePhoto (photo : Artifact) (query : String) (now : Int)
    (s : OrchState) : OrchState :=
  { s with cache := some { photo := photo, query := query, timestamp := now } }

/-- displayPhoto (main.js 245-346) restricted to cache-relevant effects: the
artifact becomes the page background.  Image-decode failures, the download
trigger and the side-channel POST are all caught or fire-and-forget in the
source, so displayPhoto never throws. -/
def displayPhoto (photo : Artifact) (s : OrchState) : OrchState :=
  { s with displayed := some photo }

/-- The tail of fetchUnsplashPhoto after the cache-validity fast path
(main.js 361-386): wait for weather, consume the prefetched photo when not
forced, otherwise build a query and fetch a fresh artifact.  The Sum result
separates normal completion (inr, final state) from a thrown error (inl,
the message together with the state at the moment of the throw). -/
def fetchUnsplashPhotoRest (caps : Capabilities) (userSettings : Option Settings)
    (forceRefresh : Bool) (now : Int) (s : OrchState) :
    (String × OrchState) ⊕ OrchState :=
  match s.currentWeather with
  | none => Sum.inr s
  | some _ =>
    match forceRefresh, s.prefetchedPhoto with
    | false, some p =>
      Sum.inr { displayPhoto p.photo (cachePhoto p.photo p.query now s) with
                prefetchedPhoto := none, lastPhotoFetchError := none }
    | _, _ =>
      match buildPhotoQueryParams s.currentWeather userSettings with
      | none => Sum.inr s
      | some params =>
        match caps.build_photo_query params with
        | Except.error e => Sum.inl (e, s)
        | Except.ok q =>
          match caps.get_unsplash_photo q with
          | Except.error e => Sum.inl (e, s)
          | Except.ok photo =>
            Sum.inr { displayPhoto photo (cachePhoto photo q now s) with
                      lastPhotoFetchError := none }

/-- The try-block of fetchUnsplashPhoto (main.js 350-386), including the
initial cache-validity fast path taken when not forced and a cache record
exists (main.js 353-359). -/
def fetchUnsplashPhotoBody (caps : Capabilities) (userSettings : Option Settings)
    (forceRefresh : Bool) (now : Int) (s : OrchState) :
    (String × OrchState) ⊕ OrchState :=
  match forceRefresh, s.cache with
  | false, some c =>
    match caps.is_cache_valid c.timestamp with
    | Except.error e => Sum.inl (e, s)
    | Except.ok v =>
      let s1 := { s with lastCacheValid := some v }
      if v then Sum.inr (displayPhoto c.photo s1)
      else fetchUnsplashPhotoRest caps userSettings false now s1
  | _, _ => fetchUnsplashPhotoRest caps userSettings forceRefresh now s

/-- fetchUnsplashPhoto (main.js 349-394).  The catch handler (main.js
388-393) records the failure reason in lastPhotoFetchError, re-reads the
cache and, when a record exists, re-presents its artifact. -/
def fetchUnsplashPhoto (caps : Capabilities) (userSettings : Option Settings)
    (forceRefresh : Bool) (now : Int) (s : OrchState) : OrchState :=
  match fetchUnsplashPhotoBody caps userSettings forceRefresh now s with
  | Sum.inr s2 => s2
  | Sum.inl (e, s1) =>
    let s2 := { s1 with lastPhotoFetchError := some e }
    match s2.cache with
    | some c => displayPhoto c.photo s2
    | none => s2

/-- prefetchNextPhoto (main.js 396-412): skip silently without weather,
otherwise build a query and fetch; on success store the artifact as the sole
prefetched photo; any thrown error is caught and only logged. -/
def prefetchNextPhoto (caps : Capabilities) (userSettings : Option Settings)
    (s : OrchState) : OrchState :=
  match s.currentWeather with
  | none => s
  | some _ =>
    match buildPhotoQueryParams s.currentWeather userSettings with
    | none => s
    | some params =>
      match caps.build_photo_query params with
      | Except.error _ => s
      | Except.ok q =>
        match caps.get_unsplash_photo q with
        | Except.error _ => s
        | Except.ok photo =>
          { s with prefetchedPhoto := some { photo := photo, query := q } }

/-- checkPhotoContext (main.js 415-436): one scheduler tick.  Without a
cache record the tick returns at once.  Otherwise it prefetches when the
cache age lies in the one-minute window before expiry and no prefetched
photo exists, then consults the validity oracle and forces a refresh when
the oracle reports invalid.  A throwing oracle lands in the catch handler
(main.js 433-435), which only logs. -/
def checkPhotoContext (caps : Capabilities) (userSettings : Option Settings)
    (now : Int) (s : OrchState) : OrchState :=
  match s.cache with
  | none => s
  | some c =>
    let cacheAge := now - c.timestamp
    let refreshInterval := getRefreshIntervalMs userSettings
    let prefetchTime := refreshInterval - 60 * 1000
    let s1 :=
      if cacheAge ≥ prefetchTime ∧ cacheAge < refreshInterval ∧
          s.prefetchedPhoto = none
      then prefetchNextPhoto caps userSettings s
      else s
    match caps.is_cache_valid c.timestamp with
    | Except.error _ => s1
    | Except.ok true => s1
    | Except.ok false => fetchUnsplashPhoto caps userSettings true now s1

/-- The body of getCachedPhoto before the catch (main.js 204-205):
localStorage.getItem followed by JSON.parse when the stored string is
truthy (the empty string is falsy and yields null).  JSON.parse is an
external capability passed as the parse parameter; a parse failure is the
Except.error that the catch of getCachedPhoto handles. -/
def getCachedPhotoRaw (parse : String → Except String CacheEntry)
    (stored : Option String) : Except String (Option CacheEntry) :=
  match stored with
  | none => Except.ok none
  | some raw =>
    if raw = "" then Except.ok none
    else (parse raw).map (fun c => some c)

/-- getCachedPhoto (main.js 202-209): the try/catch returns null on any
thrown error, so a corrupt persisted record reads as absent. -/
def getCachedPhoto (parse : String → Except String CacheEntry)
    (stored : Option String) : Option CacheEntry :=
  match getCachedPhotoRaw parse stored with
  | Except.ok v => v
  | Except.error _ => none

/-- The startup display step of init (main.js 443-447): read the cache and,
when a record exists, display its artifact immediately.  The capabilities
argument records that the step has the oracle available yet never consults
it. -/
def initShowCachedPhoto (caps : Capabilities) (s : OrchState) : OrchState :=
  match s.cache with
  | none => s
  | some c => displayPhoto c.photo s

/-!
Interleaving model for overlapping forced-refresh triggers.

main.js contains no in-flight guard variable: fetchUnsplashPhoto(true) can
be entered from the scheduler tick (main.js 431, 465-466), from the manual
refreshPhoto command (main.js 484) and from the refresh-photo event
(main.js 494) with no flag checked or set.  Because each invocation is an
async function, control returns to the event loop at every await; the await
of get_unsplash_photo (main.js 381 via fetchPhotoWithQuery) is a suspension
point at which a second trigger can start and run.  Phase records how far
one forced invocation of fetchUnsplashPhoto has progressed relative to that
suspension point, and forcedRefreshStep advances one invocation by one
segment of straight-line code, faithfully to main.js 349-394 with
forceRefresh = true (the cache-validity fast path and the prefetch-consume
branch are both skipped since both require forceRefresh to be false).
-/

/-- Progress of one forced fetchUnsplashPhoto invocation: not yet started,
suspended at the await of get_unsplash_photo with the built query, or
returned. -/
inductive Phase where
  | ready
  | fetching (q : String)
  | finished
deriving DecidableEq, Repr

/-- The catch handler of fetchUnsplashPhoto (main.js 388-393). -/
def forcedCatch (e : String) (s : OrchState) : OrchState :=
  let s2 := { s with lastPhotoFetchError := some e }
  match s2.cache with
  | some c => displayPhoto c.photo s2
  | none => s2

/-- One scheduling step of a forced fetchUnsplashPhoto invocation at phase
ph over the shared orchestrator state.  The step from ready runs main.js
350-379 with forceRefresh = true up to the await of get_unsplash_photo; the
step from fetching runs the remainder (main.js 381-386) or the catch.  The
returned Bool reports whether this step committed to the cache.  now is the
Date.now() reading of this step. -/
def forcedRefreshStep (caps : Capabilities) (userSettings : Option Settings)
    (now : Int) (ph : Phase) (s : OrchState) : Phase × OrchState × Bool :=
  match ph with
  | Phase.finished => (Phase.finished, s, false)
  | Phase.ready =>
    match s.currentWeather with
    | none => (Phase.finished, s, false)
    | some _ =>
      match buildPhotoQueryParams s.currentWeather userSettings with
      | none => (Phase.finished, s, false)
      | some params =>
        match caps.build_photo_query params with
        | Except.error e => (Phase.finished, forcedCatch e s, false)
        | Except.ok q => (Phase.fetching q, s, false)
  | Phase.fetching q =>
    match caps.get_unsplash_photo q with
    | Except.error e => (Phase.finished, forcedCatch e s, false)
    | Except.ok photo =>
      (Phase.finished,
       { displayPhoto photo (cachePhoto photo q now s) with
         lastPhotoFetchError := none },
       true)

/-- Two concurrently triggered forced refreshes sharing the orchestrator
state, with a count of cache commits performed so far. -/
structure RaceState where
  orch : OrchState
  t1 : Phase
  t2 : Phase
  commits : Nat
deriving DecidableEq, Repr

/-- Advance the chosen trigger by one segment at the given wall-clock time. -/
def raceStep (caps : Capabilities) (userSettings : Option Settings)
    (choice : Bool × Int) (r : RaceState) : RaceState :=
  if choice.1 then
    match forcedRefreshStep caps userSettings choice.2 r.t1 r.orch with
    | (ph, s, c) =>
      { orch := s, t1 := ph, t2 := r.t2,
        commits := r.commits + (if c then 1 else 0) }
  else
    match forcedRefreshStep caps userSettings choice.2 r.t2 r.orch with
    | (ph, s, c) =>
      { orch := s, t1 := r.t1, t2 := ph,
        commits := r.commits + (if c then 1 else 0) }

/-- Run a schedule: each entry names the trigger to advance and the
Date.now() reading of that step. -/
def runSchedule (caps : Capabilities) (userSettings : Option Settings) :
    List (Bool × Int) → RaceState → RaceState
  | [], r => r
  | choice :: rest, r =>
    runSchedule caps userSettings rest (raceStep caps userSettings choice r)

/-- Running one trigger alone from ready to completion. -/
def runTriggerAlone (caps : Capabilities) (userSettings : Option Settings)
    (now : Int) (s : OrchState) : OrchState :=
  match forcedRefreshStep caps userSettings now Phase.ready s with
  | (Phase.fetching q, s1, _) =>
    (forcedRefreshStep caps userSettings now (Phase.fetching q) s1).2.1
  | (_, s1, _) => s1

/-- Fidelity of the interleaving model: a forced trigger run alone, with no
other trigger interleaved at its suspension point, computes exactly
fetchUnsplashPhoto with forceRefresh = true. -/
theorem runTriggerAlone_eq_fetchUnsplashPhoto (caps : Capabilities)
    (userSettings : Option Settings) (now : Int) (s : OrchState) :
    runTriggerAlone caps userSettings now s =
      fetchUnsplashPhoto caps userSettings true now s := by
  unfold runTriggerAlone fetchUnsplashPhoto fetchUnsplashPhotoBody
    fetchUnsplashPhotoRest forcedRefreshStep forcedCatch buildPhotoQueryParams
  cases hw : s.currentWeather with
  | none => simp
  | some w =>
    cases hq : caps.build_photo_query (mkQueryParams w userSettings) with
    | error e => simp [hq, hw]
    | ok q =>
      cases hp : caps.get_unsplash_photo q with
      | error e => simp [hq, hp, hw]
      | ok photo => simp [hq, hp, hw]

/-! Concrete fixtures used by witnesses and counterexamples. -/

/-- A concrete artifact standing for a previously cached photo. -/
def photoOld : Artifact :=
  { url := "https://images.example/old", author := "Olive",
    authorUrl := "https://unsplash.example/olive", downloadLocation := none }

/-- A concrete artifact standing for the prefetched photo. -/
def photoPre : Artifact :=
  { url := "https://images.example/pre", author := "Petra",
    authorUrl := "https://unsplash.example/petra", downloadLocation := none }

/-- A concrete artifact standing for a freshly fetched photo. -/
def photoNew : Artifact :=
  { url := "https://images.example/new", author := "Nadia",
    authorUrl := "https://unsplash.example/nadia", downloadLocation := none }

/-- A concrete weather snapshot. -/
def weather0 : Weather :=
  { cloudcover := 20, rain := 0, snowfall := 0,
    sunrise := "2026-10-12T07:00:00Z", sunset := "2026-10-12T19:00:00Z" }

/-- Concrete settings with the default 30 minute refresh interval. -/
def settings30 : Option Settings :=
  some { photos := some { refresh_interval := some 30,
                          enable_festive_queries := some true } }

/-- Capabilities whose validity oracle gives the fixed answer v, whose query
builder returns a fixed query and whose fetch succeeds with the given
artifact. -/
def capsOk (v : Except String Bool) (photo : Artifact) : Capabilities :=
  { is_cache_valid := fun _ => v
    build_photo_query := fun _ => Except.ok "scenic landscape"
    get_unsplash_photo := fun _ => Except.ok photo }

/-- Capabilities whose validity oracle gives the fixed answer v and whose
fetch always fails with the given message. -/
def capsFetchFail (v : Except String Bool) (msg : String) : Capabilities :=
  { is_cache_valid := fun _ => v
    build_photo_query := fun _ => Except.ok "scenic landscape"
    get_unsplash_photo := fun _ => Except.error msg }

/-- A concrete state: cached entry committed at time 0, a pending prefetched
photo, weather available. -/
def statePre : OrchState :=
  { cache := some { photo := photoOld, query := "old query", timestamp := 0 }
    prefetchedPhoto := some { photo := photoPre, query := "pre query" }
    displayed := some photoOld
    lastCacheValid := some true
    lastPhotoFetchError := none
    currentWeather := some weather0 }

/-- statePre without the pending prefetched photo. -/
def stateNoPre : OrchState :=
  { statePre with prefetchedPhoto := none }

/-- A concrete well-formed cache entry used to exercise the Cache Store
read. -/
def entryGood : CacheEntry :=
  { photo := photoOld, query := "old query", timestamp := 5 }

/-- A concrete JSON.parse stand-in: one string parses to entryGood, every
other string throws. -/
def parseFixture : String → Except String CacheEntry :=
  fun raw =>
    if raw = "wellformed record" then Except.ok entryGood
    else Except.error "SyntaxError: Unexpected token"

/-! Helper lemmas about the orchestrator, shared by the claim theorems. -/

/-- prefetchNextPhoto when weather is present and both capability calls
succeed: the fetched artifact is stored as the sole prefetched photo and
nothing else changes. -/
theorem prefetchNextPhoto_success (caps : Capabilities)
    (us : Option Settings) (s : OrchState) (w : Weather) (q : String)
    (photo : Artifact)
    (hw : s.currentWeather = some w)
    (hq : caps.build_photo_query (mkQueryParams w us) = Except.ok q)
    (hf : caps.get_unsplash_photo q = Except.ok photo) :
    prefetchNextPhoto caps us s =
      { s with prefetchedPhoto := some { photo := photo, query := q } } := by
  unfold prefetchNextPhoto buildPhotoQueryParams
  rw [hw]
  simp [hq, hf]

/-- A forced fetchUnsplashPhoto never touches the prefetch buffer: the
consume branch requires forceRefresh to be false, and neither the commit
nor the catch handler writes prefetchedPhoto. -/
theorem fetchUnsplashPhoto_forced_keeps_prefetched (caps : Capabilities)
    (us : Option Settings) (now : Int) (s : OrchState) :
    (fetchUnsplashPhoto caps us true now s).prefetchedPhoto =
      s.prefetchedPhoto := by
  unfold fetchUnsplashPhoto fetchUnsplashPhotoBody fetchUnsplashPhotoRest
    buildPhotoQueryParams
  cases hw : s.currentWeather with
  | none => simp
  | some w =>
    cases hq : caps.build_photo_query (mkQueryParams w us) with
    | error e =>
      simp only [hq]
      cases s.cache <;> simp [displayPhoto]
    | ok q =>
      cases hp : caps.get_unsplash_photo q with
      | error e =>
        simp only [hq, hp]
        cases s.cache <;> simp [displayPhoto]
      | ok photo => simp [hq, hp, displayPhoto, cachePhoto]

/-- Any run of fetchUnsplashPhoto either leaves the cache record untouched
or commits an entry stamped with the Date.now() reading of the run. -/
theorem fetchUnsplashPhoto_cache_commit (caps : Capabilities)
    (us : Option Settings) (force : Bool) (now : Int) (s : OrchState) :
    (fetchUnsplashPhoto caps us force now s).cache = s.cache ∨
    ∃ ce, (fetchUnsplashPhoto caps us force now s).cache = some ce ∧
      ce.timestamp = now := by
  unfold fetchUnsplashPhoto fetchUnsplashPhotoBody fetchUnsplashPhotoRest
    buildPhotoQueryParams
  cases hforce : force with
  | true =>
    cases hw : s.currentWeather with
    | none => simp
    | some w =>
      cases hq : caps.build_photo_query (mkQueryParams w us) with
      | error e =>
        simp only [hq]
        cases s.cache <;> simp [displayPhoto]
      | ok q =>
        cases hp : caps.get_unsplash_photo q with
        | error e =>
          simp only [hq, hp]
          cases s.cache <;> simp [displayPhoto]
        | ok photo =>
          right
          exact ⟨{ photo := photo, query := q, timestamp := now },
            by simp [hq, hp, displayPhoto, cachePhoto], rfl⟩
  | false =>
    cases hc : s.cache with
    | some c =>
      cases hv : caps.is_cache_valid c.timestamp with
      | error e => simp [hv, hc, displayPhoto]
      | ok v =>
        cases v with
        | true => simp [hv, displayPhoto]
        | false =>
          cases hw : s.currentWeather with
          | none => simp [hv, hw]
          | some w =>
            cases hpre : s.prefetchedPhoto with
            | some p =>
              right
              exact ⟨{ photo := p.photo, query := p.query, timestamp := now },
                by simp [hv, hw, hpre, displayPhoto, cachePhoto], rfl⟩
            | none =>
              cases hq : caps.build_photo_query (mkQueryParams w us) with
              | error e => simp [hv, hw, hpre, hq, hc, displayPhoto]
              | ok q =>
                cases hp : caps.get_unsplash_photo q with
                | error e => simp [hv, hw, hpre, hq, hp, hc, displayPhoto]
                | ok photo =>
                  right
                  exact ⟨{ photo := photo, query := q, timestamp := now },
                    by simp [hv, hw, hpre, hq, hp, displayPhoto, cachePhoto],
                    rfl⟩
    | none =>
      cases hw : s.currentWeather with
      | none => simp [hc, hw]
      | some w =>
        cases hpre : s.prefetchedPhoto with
        | some p =>
          right
          exact ⟨{ photo := p.photo, query := p.query, timestamp := now },
            by simp [hc, hw, hpre, displayPhoto, cachePhoto], rfl⟩
        | none =>
          cases hq : caps.build_photo_query (mkQueryParams w us) with
          | error e => simp [hc, hw, hpre, hq, displayPhoto]
          | ok q =>
            cases hp : caps.get_unsplash_photo q with
            | error e => simp [hc, hw, hpre, hq, hp, displayPhoto]
            | ok photo =>
              right
              exact ⟨{ photo := photo, query := q, timestamp := now },
                by simp [hc, hw, hpre, hq, hp, displayPhoto, cachePhoto], rfl⟩

/-! Claim theorems. -/

/-- C5: for every persisted value under the cache key, including absent or
unparsable ones, the Cache Store read returns absent (none) rather than
raising, and a well-formed value is returned as the parsed entry.  The read
is a total function into Option, so no error can escape; the three
conjuncts settle the absent, unparsable and well-formed cases. -/
theorem C5_read_tolerates_corruption
    (parse : String → Except String CacheEntry) (stored : Option String) :
    (stored = none → getCachedPhoto parse stored = none) ∧
    (∀ raw e, stored = some raw → parse raw = Except.error e →
      getCachedPhoto parse stored = none) ∧
    (∀ raw c, stored = some raw → raw ≠ "" → parse raw = Except.ok c →
      getCachedPhoto parse stored = some c) := by
  refine ⟨?_, ?_, ?_⟩
  · intro h
    subst h
    simp [getCachedPhoto, getCachedPhotoRaw]
  · intro raw e hs hp
    subst hs
    by_cases hraw : raw = ""
    · simp [getCachedPhoto, getCachedPhotoRaw, hraw]
    · simp [getCachedPhoto, getCachedPhotoRaw, hraw, hp, Except.map]
  · intro raw c hs hraw hp
    subst hs
    simp [getCachedPhoto, getCachedPhotoRaw, hraw, hp, Except.map]

/-- C5 witness: an unparsable record reads as absent, a well-formed record
reads as the parsed entry. -/
theorem C5_witness :
    getCachedPhoto parseFixture (some "corrupt#record") = none ∧
    getCachedPhoto parseFixture (some "wellformed record") = some entryGood :=
  ⟨(C5_read_tolerates_corruption parseFixture
      (some "corrupt#record")).2.1 "corrupt#record"
      "SyntaxError: Unexpected token" rfl rfl,
   (C5_read_tolerates_corruption parseFixture
      (some "wellformed record")).2.2 "wellformed record" entryGood rfl
      (by decide) rfl⟩

/-- C9: the derived refresh interval is 30 times 60000 ms when
settings.photos.refresh_interval is missing, null or zero, and
refresh_interval times 60000 ms otherwise. -/
theorem C9_refresh_interval_default (userSettings : Option Settings) :
    ((userSettings.bind (fun u => u.photos)).bind
        (fun p => p.refresh_interval) = none →
      getRefreshIntervalMs userSettings = 30 * 60000) ∧
    ((userSettings.bind (fun u => u.photos)).bind
        (fun p => p.refresh_interval) = some 0 →
      getRefreshIntervalMs userSettings = 30 * 60000) ∧
    (∀ v, (userSettings.bind (fun u => u.photos)).bind
        (fun p => p.refresh_interval) = some v → v ≠ 0 →
      getRefreshIntervalMs userSettings = v * 60000) := by
  refine ⟨?_, ?_, ?_⟩
  · intro h
    unfold getRefreshIntervalMs
    rw [h]
    norm_num
  · intro h
    unfold getRefreshIntervalMs
    rw [h]
    norm_num
  · intro v h hv
    unfold getRefreshIntervalMs
    rw [h]
    simp [hv]
    ring

/-- C9 witness: absent settings give the 30 minute default, and an explicit
interval of 30 minutes gives the same 1800000 ms. -/
theorem C9_witness :
    getRefreshIntervalMs none = 30 * 60000 ∧
    getRefreshIntervalMs settings30 = 30 * 60000 :=
  ⟨(C9_refresh_interval_default none).1 rfl,
   (C9_refresh_interval_default settings30).2.2 30 rfl (by decide)⟩

/-- C10: at process start, an existing cache record is presented
immediately: its artifact becomes the displayed artifact, the record itself
and the last validity verdict are untouched, and the step is independent of
the validity oracle (the same state results under any capabilities), so an
expired entry is still displayed. -/
theorem C10_startup_displays_cached (caps caps2 : Capabilities)
    (s : OrchState) (c : CacheEntry) (hc : s.cache = some c) :
    (initShowCachedPhoto caps s).displayed = some c.photo ∧
    (initShowCachedPhoto caps s).cache = s.cache ∧
    (initShowCachedPhoto caps s).lastCacheValid = s.lastCacheValid ∧
    initShowCachedPhoto caps s = initShowCachedPhoto caps2 s := by
  unfold initShowCachedPhoto
  rw [hc]
  simp [displayPhoto, hc]

/-- C10 witness: under an oracle that reports the entry invalid, startup
still displays the cached artifact and leaves the record alone. -/
theorem C10_witness :
    (initShowCachedPhoto (capsOk (Except.ok false) photoNew)
        statePre).displayed = some photoOld ∧
    (initShowCachedPhoto (capsOk (Except.ok false) photoNew)
        statePre).cache = statePre.cache := by
  have h := C10_startup_displays_cached (capsOk (Except.ok false) photoNew)
    (capsOk (Except.error "oracle down") photoNew) statePre
    { photo := photoOld, query := "old query", timestamp := 0 } rfl
  exact ⟨h.1, h.2.1⟩

/-- C7: prefetch never writes the Cache Store and never changes the
displayed artifact; with no context snapshot it returns silently leaving
everything unchanged; on success it only stores the fetched artifact in the
prefetch buffer; and in every case the whole effect is either nothing or
that single buffer write, so a failed fetch leaves an empty buffer empty. -/
theorem C7_prefetch_is_isolated (caps : Capabilities)
    (us : Option Settings) (s : OrchState) :
    ((prefetchNextPhoto caps us s).cache = s.cache ∧
     (prefetchNextPhoto caps us s).displayed = s.displayed ∧
     (prefetchNextPhoto caps us s).lastPhotoFetchError =
       s.lastPhotoFetchError) ∧
    (s.currentWeather = none → prefetchNextPhoto caps us s = s) ∧
    (∀ w q photo, s.currentWeather = some w →
      caps.build_photo_query (mkQueryParams w us) = Except.ok q →
      caps.get_unsplash_photo q = Except.ok photo →
      prefetchNextPhoto caps us s =
        { s with prefetchedPhoto := some { photo := photo, query := q } }) ∧
    (prefetchNextPhoto caps us s = s ∨
      ∃ p, prefetchNextPhoto caps us s =
        { s with prefetchedPhoto := some p }) := by
  refine ⟨?_, ?_, ?_, ?_⟩
  · unfold prefetchNextPhoto buildPhotoQueryParams
    cases hw : s.currentWeather with
    | none => simp
    | some w =>
      cases hq : caps.build_photo_query (mkQueryParams w us) with
      | error e => simp [hq]
      | ok q =>
        cases hp : caps.get_unsplash_photo q with
        | error e => simp [hq, hp]
        | ok photo => simp [hq, hp]
  · intro hw
    unfold prefetchNextPhoto
    rw [hw]
  · intro w q photo hw hq hp
    exact prefetchNextPhoto_success caps us s w q photo hw hq hp
  · unfold prefetchNextPhoto buildPhotoQueryParams
    cases hw : s.currentWeather with
    | none => left; rfl
    | some w =>
      cases hq : caps.build_photo_query (mkQueryParams w us) with
      | error e => left; simp [hq]
      | ok q =>
        cases hp : caps.get_unsplash_photo q with
        | error e => left; simp [hq, hp]
        | ok photo =>
          right
          exact ⟨{ photo := photo, query := q }, by simp [hq, hp]⟩

/-- C7 witness: a successful prefetch from a state with an empty buffer only
fills the buffer; cache and displayed artifact are untouched. -/
theorem C7_witness :
    prefetchNextPhoto (capsOk (Except.ok true) photoNew) settings30
        stateNoPre =
      { stateNoPre with prefetchedPhoto := some ⟨photoNew, "scenic landscape"⟩ } :=
  (C7_prefetch_is_isolated (capsOk (Except.ok true) photoNew) settings30
      stateNoPre).2.2.1 weather0 "scenic landscape" photoNew rfl rfl rfl

/-- C6: a commit stamps the cache entry with the Date.now() reading of the
committing run, so across two successive runs of fetchUnsplashPhoto whose
wall-clock readings are ordered, a commit in the first run and a commit in
the second run carry ordered timestamps.  A commit is a run whose resulting
cache record differs from the one it started from. -/
theorem C6_commit_timestamps_monotonic (caps1 caps2 : Capabilities)
    (us1 us2 : Option Settings) (f1 f2 : Bool) (now1 now2 : Int)
    (s : OrchState) (e1 e2 : CacheEntry)
    (h12 : now1 ≤ now2)
    (h1 : (fetchUnsplashPhoto caps1 us1 f1 now1 s).cache = some e1)
    (hch1 : (fetchUnsplashPhoto caps1 us1 f1 now1 s).cache ≠ s.cache)
    (h2 : (fetchUnsplashPhoto caps2 us2 f2 now2
            (fetchUnsplashPhoto caps1 us1 f1 now1 s)).cache = some e2)
    (hch2 : (fetchUnsplashPhoto caps2 us2 f2 now2
            (fetchUnsplashPhoto caps1 us1 f1 now1 s)).cache ≠
          (fetchUnsplashPhoto caps1 us1 f1 now1 s).cache) :
    e1.timestamp = now1 ∧ e2.timestamp = now2 ∧
      e1.timestamp ≤ e2.timestamp := by
  rcases fetchUnsplashPhoto_cache_commit caps1 us1 f1 now1 s with
    hsame | ⟨ce1, hce1, hts1⟩
  · exact absurd hsame hch1
  · rcases fetchUnsplashPhoto_cache_commit caps2 us2 f2 now2
      (fetchUnsplashPhoto caps1 us1 f1 now1 s) with hsame | ⟨ce2, hce2, hts2⟩
    · exact absurd hsame hch2
    · have he1 : e1 = ce1 := by
        rw [h1] at hce1
        exact (Option.some_injective _ hce1.symm).symm
      have he2 : e2 = ce2 := by
        rw [h2] at hce2
        exact (Option.some_injective _ hce2.symm).symm
      subst he1
      subst he2
      exact ⟨hts1, hts2, by rw [hts1, hts2]; exact h12⟩

/-- C6 witness: two successive forced refreshes at wall-clock times 1800000
and 3600000 commit entries stamped 1800000 and 3600000. -/
theorem C6_witness :
    ({ photo := photoNew, query := "scenic landscape",
       timestamp := 1800000 } : CacheEntry).timestamp = 1800000 ∧
    ({ photo := photoPre, query := "scenic landscape",
       timestamp := 3600000 } : CacheEntry).timestamp = 3600000 ∧
    ({ photo := photoNew, query := "scenic landscape",
       timestamp := 1800000 } : CacheEntry).timestamp ≤
      ({ photo := photoPre, query := "scenic landscape",
         timestamp := 3600000 } : CacheEntry).timestamp :=
  C6_commit_timestamps_monotonic
    (capsOk (Except.ok false) photoNew) (capsOk (Except.ok false) photoPre)
    settings30 settings30 true true 1800000 3600000 stateNoPre
    { photo := photoNew, query := "scenic landscape", timestamp := 1800000 }
    { photo := photoPre, query := "scenic landscape", timestamp := 3600000 }
    (by norm_num) (by decide) (by decide) (by decide) (by decide)

/-- C2: when the artifact fetch of a refresh fails, the cache record is left
unchanged, the failure reason is recorded in lastPhotoFetchError, the
prefetch buffer is untouched, an existing cached artifact is re-presented as
the displayed artifact, and with no cache record the displayed artifact is
unchanged; the catch handler returns normally, so nothing is raised.  The
disjunctive premise covers all refresh paths that reach the fetch: a forced
refresh, or a non-forced one whose cache record is absent or reported
invalid while no prefetched photo is pending. -/
theorem C2_fetch_failure_keeps_cache (caps : Capabilities)
    (us : Option Settings) (force : Bool) (now : Int) (s : OrchState)
    (w : Weather) (q err : String)
    (hw : s.currentWeather = some w)
    (hq : caps.build_photo_query (mkQueryParams w us) = Except.ok q)
    (hf : caps.get_unsplash_photo q = Except.error err)
    (hbr : force = true ∨
      (s.prefetchedPhoto = none ∧
        ∀ c, s.cache = some c →
          caps.is_cache_valid c.timestamp = Except.ok false)) :
    (fetchUnsplashPhoto caps us force now s).cache = s.cache ∧
    (fetchUnsplashPhoto caps us force now s).lastPhotoFetchError =
      some err ∧
    (fetchUnsplashPhoto caps us force now s).prefetchedPhoto =
      s.prefetchedPhoto ∧
    (∀ c, s.cache = some c →
      (fetchUnsplashPhoto caps us force now s).displayed = some c.photo) ∧
    (s.cache = none →
      (fetchUnsplashPhoto caps us force now s).displayed = s.displayed) := by
  rcases hbr with hforce | ⟨hpre, hvalid⟩
  · subst hforce
    unfold fetchUnsplashPhoto fetchUnsplashPhotoBody fetchUnsplashPhotoRest
      buildPhotoQueryParams
    rw [hw]
    cases hc : s.cache with
    | none => simp [hq, hf, hc]
    | some c => simp [hq, hf, hc, displayPhoto]
  · cases hforce : force with
    | true =>
      unfold fetchUnsplashPhoto fetchUnsplashPhotoBody fetchUnsplashPhotoRest
        buildPhotoQueryParams
      rw [hw]
      cases hc : s.cache with
      | none => simp [hq, hf, hc]
      | some c => simp [hq, hf, hc, displayPhoto]
    | false =>
      unfold fetchUnsplashPhoto fetchUnsplashPhotoBody fetchUnsplashPhotoRest
        buildPhotoQueryParams
      cases hc : s.cache with
      | none =>
        rw [hw]
        simp [hq, hf, hc, hpre]
      | some c =>
        have hv := hvalid c hc
        simp [hc, hv, hw, hpre, hq, hf, displayPhoto]

/-- C2 witness: a forced refresh whose fetch fails leaves the cached entry
in place, records the failure, keeps the pending prefetched photo and
re-presents the cached artifact. -/
theorem C2_witness :
    (fetchUnsplashPhoto (capsFetchFail (Except.ok false) "network down")
        settings30 true 1860000 statePre).cache = statePre.cache ∧
    (fetchUnsplashPhoto (capsFetchFail (Except.ok false) "network down")
        settings30 true 1860000 statePre).lastPhotoFetchError =
      some "network down" ∧
    (fetchUnsplashPhoto (capsFetchFail (Except.ok false) "network down")
        settings30 true 1860000 statePre).displayed = some photoOld := by
  have h := C2_fetch_failure_keeps_cache
    (capsFetchFail (Except.ok false) "network down") settings30 true 1860000
    statePre weather0 "scenic landscape" "network down" rfl rfl rfl
    (Or.inl rfl)
  exact ⟨h.1, h.2.1,
    h.2.2.2.1 { photo := photoOld, query := "old query", timestamp := 0 } rfl⟩

/-- C4: on a scheduler tick with a cached entry, weather context available
and succeeding capabilities, the prefetch buffer after the tick holds a
newly prefetched artifact exactly when the cache age lies in
[ttl - 60000, ttl) and the buffer was empty, and is otherwise unchanged; in
particular a pending prefetched photo is never replaced. -/
theorem C4_prefetch_window_iff (caps : Capabilities) (us : Option Settings)
    (now : Int) (s : OrchState) (c : CacheEntry) (w : Weather) (q : String)
    (photo : Artifact)
    (hc : s.cache = some c) (hw : s.currentWeather = some w)
    (hq : caps.build_photo_query (mkQueryParams w us) = Except.ok q)
    (hf : caps.get_unsplash_photo q = Except.ok photo) :
    (checkPhotoContext caps us now s).prefetchedPhoto =
      (if now - c.timestamp ≥ getRefreshIntervalMs us - 60 * 1000 ∧
          now - c.timestamp < getRefreshIntervalMs us ∧
          s.prefetchedPhoto = none
       then some { photo := photo, query := q }
       else s.prefetchedPhoto) := by
  unfold checkPhotoContext
  rw [hc]
  simp only []
  by_cases hcond : now - c.timestamp ≥ getRefreshIntervalMs us - 60 * 1000 ∧
      now - c.timestamp < getRefreshIntervalMs us ∧ s.prefetchedPhoto = none
  · rw [if_pos hcond, if_pos hcond,
      prefetchNextPhoto_success caps us s w q photo hw hq hf]
    cases hv : caps.is_cache_valid c.timestamp with
    | error e => simp
    | ok v =>
      cases v with
      | true => simp
      | false =>
        rw [fetchUnsplashPhoto_forced_keeps_prefetched]
  · rw [if_neg hcond, if_neg hcond]
    cases hv : caps.is_cache_valid c.timestamp with
    | error e => simp
    | ok v =>
      cases v with
      | true => simp
      | false =>
        rw [fetchUnsplashPhoto_forced_keeps_prefetched]

/-- C4 witness: at cache age 29 min 10 s with a 30 minute interval and an
empty buffer, the tick prefetches; the buffer then holds the fetched
artifact. -/
theorem C4_witness :
    (checkPhotoContext (capsOk (Except.ok true) photoNew) settings30 1750000
        stateNoPre).prefetchedPhoto =
      some { photo := photoNew, query := "scenic landscape" } := by
  have h := C4_prefetch_window_iff (capsOk (Except.ok true) photoNew)
    settings30 1750000 stateNoPre
    { photo := photoOld, query := "old query", timestamp := 0 }
    weather0 "scenic landscape" photoNew rfl rfl rfl rfl
  rw [h]
  decide

/-- C1 counterexample: a tick at cache age 31 min with a 30 minute interval
and an invalid verdict forces a refresh while a prefetched photo (photoPre)
is pending; the code fetches a fresh artifact (photoNew), commits that, and
leaves the prefetch buffer occupied — the pending prefetched artifact is
neither committed nor cleared, contradicting the claim. -/
theorem C1_counterexample :
    (checkPhotoContext (capsOk (Except.ok false) photoNew) settings30
        1860000 statePre).prefetchedPhoto =
      some { photo := photoPre, query := "pre query" } ∧
    (checkPhotoContext (capsOk (Except.ok false) photoNew) settings30
        1860000 statePre).cache =
      some { photo := photoNew, query := "scenic landscape",
             timestamp := 1860000 } ∧
    photoNew ≠ photoPre := by
  refine ⟨by decide, by decide, by decide⟩

/-- C1 amended: a forced refresh does not consume a pending
PrefetchedArtifact; it leaves the Prefetch Buffer unchanged and issues a new
fetch, committing the freshly fetched artifact as the new CacheEntry with
timestampMs = now and presenting it.  (Only a non-forced refresh with an
invalid or absent cache consumes the pending prefetched artifact.) -/
theorem C1_forced_refresh_ignores_prefetched (caps : Capabilities)
    (us : Option Settings) (now : Int) (s : OrchState) (p : PrefetchedPhoto)
    (w : Weather) (q : String) (photo : Artifact)
    (hp : s.prefetchedPhoto = some p)
    (hw : s.currentWeather = some w)
    (hq : caps.build_photo_query (mkQueryParams w us) = Except.ok q)
    (hf : caps.get_unsplash_photo q = Except.ok photo) :
    fetchUnsplashPhoto caps us true now s =
      { s with
        cache := some { photo := photo, query := q, timestamp := now },
        displayed := some photo,
        lastPhotoFetchError := none } := by
  unfold fetchUnsplashPhoto fetchUnsplashPhotoBody fetchUnsplashPhotoRest
    buildPhotoQueryParams
  rw [hw]
  simp [hq, hf, hw, displayPhoto, cachePhoto]

/-- C1 witness: the amended behaviour at a concrete state with a pending
prefetched photo. -/
theorem C1_witness :
    fetchUnsplashPhoto (capsOk (Except.ok false) photoNew) settings30 true
        1860000 statePre =
      { statePre with
        cache := some { photo := photoNew, query := "scenic landscape",
                        timestamp := 1860000 },
        displayed := some photoNew,
        lastPhotoFetchError := none } :=
  C1_forced_refresh_ignores_prefetched (capsOk (Except.ok false) photoNew)
    settings30 1860000 statePre { photo := photoPre, query := "pre query" }
    weather0 "scenic landscape" photoNew rfl rfl rfl rfl

/-- C3 counterexample: on a tick where the validity oracle raises, the state
is completely unchanged — no forced refresh happens — whereas the very same
tick with the oracle answering false does commit a fresh entry.  The error
is therefore not treated as an invalid verdict. -/
theorem C3_counterexample :
    checkPhotoContext (capsOk (Except.error "oracle down") photoNew)
        settings30 1860000 stateNoPre = stateNoPre ∧
    (checkPhotoContext (capsOk (Except.ok false) photoNew) settings30
        1860000 stateNoPre).cache ≠ stateNoPre.cache := by
  refine ⟨by decide, by decide⟩

/-- C3 amended: when the checkValidity capability raises on a scheduler
tick, the catch handler aborts the tick: no forced refresh is triggered and
the state is exactly what the independent prefetch branch left (unchanged
unless the age-window prefetch fired earlier in the same tick). -/
theorem C3_oracle_error_aborts_tick (caps : Capabilities)
    (us : Option Settings) (now : Int) (s : OrchState) (c : CacheEntry)
    (e : String)
    (hc : s.cache = some c)
    (he : caps.is_cache_valid c.timestamp = Except.error e) :
    checkPhotoContext caps us now s =
      (if now - c.timestamp ≥ getRefreshIntervalMs us - 60 * 1000 ∧
          now - c.timestamp < getRefreshIntervalMs us ∧
          s.prefetchedPhoto = none
       then prefetchNextPhoto caps us s
       else s) := by
  unfold checkPhotoContext
  rw [hc]
  simp [he]

/-- C3 witness: a concrete tick outside the prefetch window with a raising
oracle leaves the state untouched. -/
theorem C3_witness :
    checkPhotoContext (capsOk (Except.error "oracle down") photoNew)
        settings30 1900000 stateNoPre = stateNoPre := by
  have h := C3_oracle_error_aborts_tick
    (capsOk (Except.error "oracle down") photoNew) settings30 1900000
    stateNoPre { photo := photoOld, query := "old query", timestamp := 0 }
    "oracle down" rfl rfl
  rw [h]
  decide

/-- C8 counterexample: with no in-flight guard in the code, a schedule in
which a second forced-refresh trigger starts while the first is suspended at
its artifact fetch ends with both triggers finished and two commits — not
exactly one commit with the overlap dropped. -/
theorem C8_counterexample :
    (runSchedule (capsOk (Except.ok false) photoNew) settings30
        [(true, 1800000), (false, 1800500), (true, 1801000), (false, 1801500)]
        { orch := stateNoPre, t1 := Phase.ready, t2 := Phase.ready,
          commits := 0 }).commits = 2 := by
  decide

/-- C8 amended: commits are not serialized; the code has no in-flight guard,
so when two forced-refresh triggers overlap at the artifact-fetch suspension
point, neither is dropped: both run to completion, both commit, and the
later commit overwrites the earlier one. -/
theorem C8_overlapping_triggers_both_commit (caps : Capabilities)
    (us : Option Settings) (t1 t2 t3 t4 : Int) (s : OrchState) (w : Weather)
    (q : String) (photo : Artifact)
    (hw : s.currentWeather = some w)
    (hq : caps.build_photo_query (mkQueryParams w us) = Except.ok q)
    (hf : caps.get_unsplash_photo q = Except.ok photo) :
    (runSchedule caps us [(true, t1), (false, t2), (true, t3), (false, t4)]
        { orch := s, t1 := Phase.ready, t2 := Phase.ready,
          commits := 0 }).commits = 2 ∧
    (runSchedule caps us [(true, t1), (false, t2), (true, t3), (false, t4)]
        { orch := s, t1 := Phase.ready, t2 := Phase.ready,
          commits := 0 }).orch.cache =
      some { photo := photo, query := q, timestamp := t4 } ∧
    (runSchedule caps us [(true, t1), (false, t2), (true, t3), (false, t4)]
        { orch := s, t1 := Phase.ready, t2 := Phase.ready,
          commits := 0 }).t1 = Phase.finished ∧
    (runSchedule caps us [(true, t1), (false, t2), (true, t3), (false, t4)]
        { orch := s, t1 := Phase.ready, t2 := Phase.ready,
          commits := 0 }).t2 = Phase.finished := by
  simp [runSchedule, raceStep, forcedRefreshStep, buildPhotoQueryParams,
    hw, hq, hf, displayPhoto, cachePhoto]

/-- C8 witness: the amended two-commit behaviour at a concrete state and
schedule. -/
theorem C8_witness :
    (runSchedule (capsOk (Except.ok false) photoNew) settings30
        [(true, 10), (false, 20), (true, 30), (false, 40)]
        { orch := stateNoPre, t1 := Phase.ready, t2 := Phase.ready,
          commits := 0 }).commits = 2 :=
  (C8_overlapping_triggers_both_commit (capsOk (Except.ok false) photoNew)
    settings30 10 20 30 40 stateNoPre weather0 "scenic landscape" photoNew
    rfl rfl rfl).1

end Idleview

